import Mathlib

/-!
Verification of `scripts/ci/check-lib-target.py`: a CI helper that reads a
Cargo metadata JSON document and a package name from the command line and
prints "true" when the named package has a target whose `kind` contains
"lib", and "false" otherwise.

The Python program is shallowly embedded: JSON values are an inductive type,
Python subscripting / iteration / the `in` operator are modelled with their
exact dynamic semantics (KeyError / TypeError on wrong shapes, substring
containment of `in` on strings), and the command-line shim is a function of
`sys.argv`, the process environment, and an abstract file system.
-/

/-- A parsed JSON value, as produced by Python's `json.load`. -/
inductive Json where
  | null : Json
  | bool : Bool → Json
  | num : Int → Json
  | str : String → Json
  | arr : List Json → Json
  | obj : List (String × Json) → Json

/-- Python exceptions that the embedded code can raise (and that the script
does not catch). -/
inductive PyErr where
  | keyError : String → PyErr
  | typeError : PyErr
deriving DecidableEq

/-- First value bound to a key in a Python dict (keys from `json.load` are
unique, so first = only). -/
def lookupKey : List (String × Json) → String → Option Json
  | [], _ => none
  | (k, v) :: rest, key => if k == key then some v else lookupKey rest key

/-- Python subscripting `v[k]` with a string key: a dict lookup raising
`KeyError` on a missing key; any non-dict value raises `TypeError`. -/
def getItem : Json → String → Except PyErr Json
  | .obj kvs, k =>
      match lookupKey kvs k with
      | some v => .ok v
      | none => .error (.keyError k)
  | _, _ => .error .typeError

/-- Python iteration `for x in v`: lists yield their elements, strings yield
their one-character substrings, dicts yield their keys; other values raise
`TypeError`. -/
def pyIter : Json → Except PyErr (List Json)
  | .arr xs => .ok xs
  | .str s => .ok (s.toList.map (fun c => Json.str (String.mk [c])))
  | .obj kvs => .ok (kvs.map (fun kv => Json.str kv.fst))
  | _ => .error .typeError

/-- Whether a JSON value is the string "lib" (Python `x == "lib"` for the
elements of a list operand of `in`; comparison with a non-string is False). -/
def isLibStr : Json → Bool
  | .str s => s == "lib"
  | _ => false

/-- Python substring containment over character lists (`needle in hay` for
strings). The empty needle is contained in every string. -/
def containsSeq (needle : List Char) : List Char → Bool
  | [] => needle.isEmpty
  | c :: rest => needle.isPrefixOf (c :: rest) || containsSeq needle rest

/-- Python's `"lib" in v`: membership for a list, substring containment for a
string, key membership for a dict; `TypeError` for non-iterable values. -/
def pyInLib : Json → Except PyErr Bool
  | .arr xs => .ok (xs.any isLibStr)
  | .str s => .ok (containsSeq "lib".toList s.toList)
  | .obj kvs => .ok (kvs.any (fun kv => kv.fst == "lib"))
  | _ => .error .typeError

/-- Python's `v == s` for a string literal `s`: string equality when `v` is a
string, `False` for every other value (no exception). -/
def pyEqStr : Json → String → Bool
  | .str t, s => t == s
  | _, _ => false

/-- `any("lib" in target["kind"] for target in targets)`: short-circuiting
scan of the targets; exceptions in a term propagate. -/
def hasLibLoop : List Json → Except PyErr Bool
  | [] => .ok false
  | t :: rest => do
      let kind ← getItem t "kind"
      let b ← pyInLib kind
      if b then .ok true else hasLibLoop rest

/-- The `for package in packages` loop of `main`: on the first package whose
`name` equals `pkg`, print the lib answer and return; otherwise fall through
to printing "false". The returned string is the line printed to stdout. -/
def loopPackages (pkg : String) : List Json → Except PyErr String
  | [] => .ok "false"
  | p :: rest => do
      let n ← getItem p "name"
      if pyEqStr n pkg then do
        let tv ← getItem p "targets"
        let ts ← pyIter tv
        let b ← hasLibLoop ts
        .ok (if b then "true" else "false")
      else loopPackages pkg rest

/-- The lookup over a parsed document: `data["packages"]`, iterate it, and
run the package loop. Returns the stdout line, or the uncaught exception. -/
def runLookup (data : Json) (pkg : String) : Except PyErr String := do
  let pv ← getItem data "packages"
  let ps ← pyIter pv
  loopPackages pkg ps

/-- Outcome of opening and JSON-parsing a file path: unreadable (`IOError`),
readable but not valid JSON (`json.JSONDecodeError`), or a parsed value. -/
inductive FileRead where
  | unreadable : FileRead
  | invalid : FileRead
  | json : Json → FileRead

/-- Observable outcome of one process run: the lines printed to stdout, the
diagnostic lines printed to stderr, and whether an uncaught exception
escaped `main` (making the process exit unsuccessfully). -/
structure ProcResult where
  stdout : List String
  stderr : List String
  crashed : Bool
deriving DecidableEq

/-- The usage diagnostic printed when arguments are missing. -/
def usageMsg : String := "Usage: check-lib-target.py <metadata-file> <package-name>"

/-- The diagnostic printed when the metadata file is unreadable or is not
valid JSON (the Python code appends the exception text; the claims only
depend on the presence of the diagnostic line). -/
def errReadMsg : String := "Error reading metadata"

/-- The whole script: `argv` is `sys.argv` (program name first), `env` is the
process environment, `fs` maps a path to the outcome of reading and parsing
it. The source never imports `os`, so `env` is received but never consulted. -/
def runMain (argv : List String) (env : String → Option String)
    (fs : String → FileRead) : ProcResult :=
  match argv with
  | _ :: a1 :: a2 :: _ =>
      match fs a1 with
      | .unreadable => ⟨["false"], [errReadMsg], false⟩
      | .invalid => ⟨["false"], [errReadMsg], false⟩
      | .json d =>
          match runLookup d a2 with
          | .ok out => ⟨[out], [], false⟩
          | .error _ => ⟨[], [], true⟩
  | _ => ⟨["false"], [usageMsg], false⟩

/-! ### The spec's data model (§3): well-formed metadata documents -/

/-- §3 Target: a `kind` set of strings. -/
structure STarget where
  kind : List String
deriving DecidableEq

/-- §3 Package: a `name` and a sequence of targets. -/
structure SPackage where
  name : String
  targets : List STarget
deriving DecidableEq

/-- The JSON encoding of a §3 target. -/
def STarget.toJson (t : STarget) : Json :=
  .obj [("kind", .arr (t.kind.map Json.str))]

/-- The JSON encoding of a §3 package. -/
def SPackage.toJson (p : SPackage) : Json :=
  .obj [("name", .str p.name), ("targets", .arr (p.targets.map STarget.toJson))]

/-- The JSON encoding of a §3 metadata document. -/
def docJson (pkgs : List SPackage) : Json :=
  .obj [("packages", .arr (pkgs.map SPackage.toJson))]

/-- Spec-side lib test for one target: its kind set contains the literal
string "lib". -/
def STarget.isLib (t : STarget) : Bool := t.kind.any (fun s => s == "lib")

/-- The spec's description of the lookup: the first package in document order
whose name exactly equals the query decides the answer; it is positive when
some target's kind set contains "lib"; no matching package means false. -/
def specHasLib (pkgs : List SPackage) (name : String) : Bool :=
  match pkgs.find? (fun p => p.name == name) with
  | some p => p.targets.any STarget.isLib
  | none => false

/-! ### Helper lemmas -/

theorem getItem_target_kind (t : STarget) :
    getItem (STarget.toJson t) "kind" = .ok (.arr (t.kind.map Json.str)) := rfl

theorem getItem_pkg_name (p : SPackage) :
    getItem (SPackage.toJson p) "name" = .ok (.str p.name) := rfl

theorem getItem_pkg_targets (p : SPackage) :
    getItem (SPackage.toJson p) "targets"
      = .ok (.arr (p.targets.map STarget.toJson)) := rfl

theorem pyInLib_arr_map_str (kind : List String) :
    pyInLib (.arr (kind.map Json.str)) = .ok (kind.any (fun s => s == "lib")) := by
  simp only [pyInLib, Except.ok.injEq]
  induction kind with
  | nil => rfl
  | cons s rest ih => simp only [List.map_cons, List.any_cons, ih, isLibStr]

theorem hasLibLoop_map (ts : List STarget) :
    hasLibLoop (ts.map STarget.toJson) = .ok (ts.any STarget.isLib) := by
  induction ts with
  | nil => rfl
  | cons t rest ih =>
      simp only [List.map_cons, hasLibLoop, getItem_target_kind, bind, Except.bind,
        pyInLib_arr_map_str, List.any_cons]
      cases h : t.kind.any (fun s => s == "lib") with
      | true => simp [STarget.isLib, h]
      | false => simp [STarget.isLib, h, ih]

theorem loopPackages_docJson (pkg : String) (pkgs : List SPackage) :
    loopPackages pkg (pkgs.map SPackage.toJson)
      = .ok (if specHasLib pkgs pkg then "true" else "false") := by
  induction pkgs with
  | nil => rfl
  | cons p rest ih =>
      by_cases h : (p.name == pkg) = true
      · simp [loopPackages, getItem_pkg_name, bind, Except.bind, pyEqStr, h,
          getItem_pkg_targets, pyIter, hasLibLoop_map, specHasLib, List.find?]
      · have h' : (p.name == pkg) = false := by rwa [Bool.not_eq_true] at h
        simp [loopPackages, getItem_pkg_name, bind, Except.bind, pyEqStr, h',
          ih, specHasLib, List.find?]

theorem runLookup_docJson (pkgs : List SPackage) (pkg : String) :
    runLookup (docJson pkgs) pkg
      = .ok (if specHasLib pkgs pkg then "true" else "false") := by
  simp only [runLookup, docJson, getItem, lookupKey, bind, Except.bind,
    beq_self_eq_true, if_true, pyIter, loopPackages_docJson]

theorem getItem_packages (v : Json) :
    getItem (.obj [("packages", v)]) "packages" = .ok v := rfl

theorem getItem_nt_name (v1 v2 : Json) :
    getItem (.obj [("name", v1), ("targets", v2)]) "name" = .ok v1 := rfl

theorem getItem_nt_targets (v1 v2 : Json) :
    getItem (.obj [("name", v1), ("targets", v2)]) "targets" = .ok v2 := rfl

theorem getItem_kind (v : Json) :
    getItem (.obj [("kind", v)]) "kind" = .ok v := rfl

theorem loopPackages_ok_vals (pkg : String) (ps : List Json) (s : String)
    (h : loopPackages pkg ps = .ok s) : s = "true" ∨ s = "false" := by
  induction ps with
  | nil =>
      simp only [loopPackages, Except.ok.injEq] at h
      exact Or.inr h.symm
  | cons p rest ih =>
      simp only [loopPackages, bind, Except.bind] at h
      split at h
      · exact Except.noConfusion h
      · split at h
        · split at h
          · exact Except.noConfusion h
          · split at h
            · exact Except.noConfusion h
            · split at h
              · exact Except.noConfusion h
              · rename_i b _
                have h' := (Except.ok.injEq _ _).mp h
                cases b with
                | true => exact Or.inl h'.symm
                | false => exact Or.inr h'.symm
        · exact ih h

theorem runLookup_ok_vals (data : Json) (pkg s : String)
    (h : runLookup data pkg = .ok s) : s = "true" ∨ s = "false" := by
  simp only [runLookup, bind, Except.bind] at h
  split at h
  · exact Except.noConfusion h
  · split at h
    · exact Except.noConfusion h
    · exact loopPackages_ok_vals _ _ _ h

/-- The package loop with the iterated sequence threaded through, modelling
that the Python for-loop body receives (an alias of) the document's package
list and could in principle mutate it; the second component is the sequence
as it stands when the loop exits. The body performs only reads. -/
def loopPackagesT (pkg : String) : List Json → Except PyErr String × List Json
  | [] => (.ok "false", [])
  | p :: rest =>
      match getItem p "name" with
      | .error e => (.error e, p :: rest)
      | .ok n =>
          if pyEqStr n pkg then
            ((do
              let tv ← getItem p "targets"
              let ts ← pyIter tv
              let b ← hasLibLoop ts
              Except.ok (if b then "true" else "false")), p :: rest)
          else
            let r := loopPackagesT pkg rest
            (r.1, p :: r.2)

/-- A document whose single package has a single target whose `kind` field is
the bare JSON string `s` instead of a list. -/
def strKindDoc (n s : String) : Json :=
  .obj [("packages",
    .arr [.obj [("name", .str n), ("targets", .arr [.obj [("kind", .str s)]])]])]

/-- Example package "core" with a single target of kind ["bin"]. -/
def corePkgBin : SPackage := ⟨"core", [⟨["bin"]⟩]⟩

/-- Example package "core" with a single target of kind ["lib","staticlib"]. -/
def corePkgLib : SPackage := ⟨"core", [⟨["lib", "staticlib"]⟩]⟩

theorem loopPackagesT_frame (pkg : String) (ps : List Json) :
    (loopPackagesT pkg ps).2 = ps ∧ (loopPackagesT pkg ps).1 = loopPackages pkg ps := by
  induction ps with
  | nil => exact ⟨rfl, rfl⟩
  | cons p rest ih =>
      simp only [loopPackagesT, loopPackages, bind, Except.bind]
      cases hg : getItem p "name" with
      | error e => exact ⟨rfl, rfl⟩
      | ok n =>
          by_cases hq : pyEqStr n pkg
          · simp [hq, bind, Except.bind]
          · simp [hq, ih.1, ih.2]

theorem find?_no_match_append (name : String) (pre : List SPackage) (p : SPackage)
    (post : List SPackage) (hpre : ∀ q ∈ pre, q.name ≠ name) (hp : p.name = name) :
    List.find? (fun q => q.name == name) (pre ++ p :: post) = some p := by
  induction pre with
  | nil => simp [List.find?, hp]
  | cons q rest ih =>
      have hq : (q.name == name) = false := by
        simp only [beq_eq_false_iff_ne, ne_eq]
        exact hpre q (List.mem_cons_self q rest)
      simp only [List.cons_append, List.find?, hq]
      exact ih (fun r hr => hpre r (List.mem_cons_of_mem _ hr))

/-! ### Claims -/

/-- Claim C1: on a §3-shaped metadata document the printed result is "true"
exactly when the first package in document order whose name equals the query
has a target whose kind set contains the literal string "lib", and "false"
otherwise; in particular a lone "core" package with kind ["bin"] answers
"false" and with kind ["lib","staticlib"] answers "true". -/
theorem c1_result_iff_first_match_has_lib :
    (∀ (pkgs : List SPackage) (name : String),
      runLookup (docJson pkgs) name
        = .ok (if specHasLib pkgs name then "true" else "false"))
    ∧ runLookup (docJson [corePkgBin]) "core" = .ok "false"
    ∧ runLookup (docJson [corePkgLib]) "core" = .ok "true" :=
  ⟨runLookup_docJson, rfl, rfl⟩

/-- Claim C2 counterexample: the file parses as the valid JSON document `{}`,
which lacks the §3 shape; `data["packages"]` raises an uncaught KeyError and
the process fails instead of exiting with status 0. -/
theorem c2_counterexample :
    (runMain ["check-lib-target.py", "meta.json", "core"] (fun _ => none)
        (fun _ => FileRead.json (Json.obj []))).crashed = true := rfl

/-- Claim C2 (amended): the process terminates normally whenever the
arguments are missing, the metadata file is unreadable, its contents are not
valid JSON, or it parses into a §3-shaped document; a valid JSON document
without that shape instead raises an uncaught exception. -/
theorem c2_amended_no_crash (argv : List String) (env : String → Option String)
    (fs : String → FileRead)
    (hfs : ∀ p, fs p = FileRead.unreadable ∨ fs p = FileRead.invalid ∨
        ∃ pkgs : List SPackage, fs p = FileRead.json (docJson pkgs)) :
    (runMain argv env fs).crashed = false := by
  match argv with
  | [] => rfl
  | [_] => rfl
  | [_, _] => rfl
  | a0 :: a1 :: a2 :: rest =>
      rcases hfs a1 with h | h | ⟨pkgs, h⟩ <;>
        simp [runMain, h, runLookup_docJson]

/-- Claim C2 witness: a concrete run on an invalid metadata file exits
normally. -/
theorem c2_amended_no_crash_witness :
    (runMain ["check-lib-target.py", "meta.json", "core"] (fun _ => none)
        (fun _ => FileRead.invalid)).crashed = false :=
  c2_amended_no_crash _ _ _ (fun _ => Or.inr (Or.inl rfl))

/-- Claim C3: when the metadata file is unreadable or not valid JSON, the
run prints exactly the line "false" on stdout, a diagnostic on stderr, and
returns normally. -/
theorem c3_unreadable_or_invalid (a0 a1 a2 : String) (rest : List String)
    (env : String → Option String) (fs : String → FileRead)
    (h : fs a1 = FileRead.unreadable ∨ fs a1 = FileRead.invalid) :
    runMain (a0 :: a1 :: a2 :: rest) env fs = ⟨["false"], [errReadMsg], false⟩ := by
  rcases h with h | h <;> simp [runMain, h]

/-- Claim C3 witness: a concrete run on an absent metadata file. -/
theorem c3_unreadable_witness :
    runMain ["check-lib-target.py", "missing.json", "core"] (fun _ => none)
        (fun _ => FileRead.unreadable)
      = ⟨["false"], [errReadMsg], false⟩ :=
  c3_unreadable_or_invalid _ _ _ _ _ _ (Or.inl rfl)

/-- Claim C4 counterexample: with no positional arguments, the run prints
"false" and the usage diagnostic for every possible environment — including
any environment carrying a lib-bearing metadata document and the package
name under any variable names — so no environment-variable invocation can
reproduce the positional invocation's "true" answer. -/
theorem c4_counterexample :
    (fun env : String → Option String =>
        runMain ["check-lib-target.py"] env
          (fun _ => FileRead.json (docJson [corePkgLib])))
      = (fun _ => ⟨["false"], [usageMsg], false⟩) := rfl

/-- Claim C4 (amended): the utility has no environment-variable invocation
shape: its entire observable behavior is independent of the environment, and
only the positional arguments (and the file system) determine the output. -/
theorem c4_env_independent (argv : List String) (env env' : String → Option String)
    (fs : String → FileRead) : runMain argv env fs = runMain argv env' fs := rfl

/-- Claim C5: when earlier packages do not match, the first package named as
queried fully determines the result; the packages after it (for example a
same-named package that does have a lib target) are never consulted. -/
theorem c5_first_match_decides (name : String) (pre : List SPackage)
    (p : SPackage) (post post' : List SPackage)
    (hpre : ∀ q ∈ pre, q.name ≠ name) (hp : p.name = name) :
    runLookup (docJson (pre ++ p :: post)) name
      = runLookup (docJson (pre ++ p :: post')) name := by
  rw [runLookup_docJson, runLookup_docJson]
  have h1 : specHasLib (pre ++ p :: post) name = p.targets.any STarget.isLib := by
    simp [specHasLib, find?_no_match_append name pre p post hpre hp]
  have h2 : specHasLib (pre ++ p :: post') name = p.targets.any STarget.isLib := by
    simp [specHasLib, find?_no_match_append name pre p post' hpre hp]
  rw [h1, h2]

/-- Claim C5 witness: a "core" package with only a bin target shadows a later
"core" package that has a lib target, and the answer stays "false". -/
theorem c5_first_match_decides_witness :
    runLookup (docJson ([] ++ corePkgBin :: [corePkgLib])) "core"
        = runLookup (docJson ([] ++ corePkgBin :: [])) "core"
      ∧ runLookup (docJson ([] ++ corePkgBin :: [corePkgLib])) "core" = .ok "false" :=
  ⟨c5_first_match_decides "core" [] corePkgBin [corePkgLib] []
      (by simp) rfl, rfl⟩

/-- Claim C6: a query name carried by no package of a well-formed document
answers "false". -/
theorem c6_absent_name_false (pkgs : List SPackage) (name : String)
    (h : ∀ p ∈ pkgs, p.name ≠ name) :
    runLookup (docJson pkgs) name = .ok "false" := by
  rw [runLookup_docJson]
  have hf : List.find? (fun p => p.name == name) pkgs = none := by
    rw [List.find?_eq_none]
    intro x hx
    simp [h x hx]
  simp [specHasLib, hf]

/-- Claim C6 witness: the empty document answers "false" for any query. -/
theorem c6_absent_name_false_witness :
    runLookup (docJson []) "anything" = .ok "false" :=
  c6_absent_name_false [] "anything" (by simp)

/-- Claim C7: with fewer than two positional arguments (fewer than three
entries of `sys.argv`), the run prints the usage diagnostic on stderr and
the line "false" on stdout, and returns normally. -/
theorem c7_missing_args (argv : List String) (env : String → Option String)
    (fs : String → FileRead) (h : argv.length < 3) :
    runMain argv env fs = ⟨["false"], [usageMsg], false⟩ := by
  match argv with
  | [] => rfl
  | [_] => rfl
  | [_, _] => rfl
  | _ :: _ :: _ :: _ => simp [List.length_cons] at h; omega

/-- Claim C7 witness: a run with a single positional argument. -/
theorem c7_missing_args_witness :
    runMain ["check-lib-target.py", "meta.json"] (fun _ => none)
        (fun _ => FileRead.unreadable)
      = ⟨["false"], [usageMsg], false⟩ :=
  c7_missing_args _ _ _ (by decide)

/-- Claim C8: a package whose name is not character-for-character identical
to the query is skipped, so the lookup answer on the document with it in
front equals the answer on the document without it. -/
theorem c8_exact_match_only (p : SPackage) (pkgs : List SPackage) (name : String)
    (h : p.name ≠ name) :
    runLookup (docJson (p :: pkgs)) name = runLookup (docJson pkgs) name := by
  rw [runLookup_docJson, runLookup_docJson]
  have hq : (p.name == name) = false := by simp [h]
  simp [specHasLib, List.find?, hq]

/-- Claim C8 witness: a name differing only in case ("Core") and a name with
the query as a proper substring ("core-utils") never match "core", even with
a lib target. -/
theorem c8_exact_match_only_witness :
    ((("Core" : String) ≠ "core")
      ∧ runLookup (docJson [⟨"Core", [⟨["lib"]⟩]⟩]) "core"
          = runLookup (docJson []) "core")
    ∧ ((("core-utils" : String) ≠ "core")
      ∧ runLookup (docJson [⟨"core-utils", [⟨["lib"]⟩]⟩]) "core"
          = runLookup (docJson []) "core") :=
  ⟨⟨by decide, c8_exact_match_only ⟨"Core", [⟨["lib"]⟩]⟩ [] "core" (by decide)⟩,
   ⟨by decide, c8_exact_match_only ⟨"core-utils", [⟨["lib"]⟩]⟩ [] "core" (by decide)⟩⟩

/-- Claim C9: the lookup is a pure read: the package loop leaves the package
sequence exactly as it found it (threaded-state version agrees with the
plain one), and the only stdout output of any run is a single "true" or
"false" line, except that a crashing run prints nothing to stdout. -/
theorem c9_pure_read (pkg : String) (ps : List Json) (argv : List String)
    (env : String → Option String) (fs : String → FileRead) :
    ((loopPackagesT pkg ps).2 = ps
      ∧ (loopPackagesT pkg ps).1 = loopPackages pkg ps)
    ∧ ((runMain argv env fs).stdout = ["true"]
      ∨ (runMain argv env fs).stdout = ["false"]
      ∨ ((runMain argv env fs).stdout = [] ∧ (runMain argv env fs).crashed = true)) := by
  refine ⟨loopPackagesT_frame pkg ps, ?_⟩
  match argv with
  | [] => exact Or.inr (Or.inl rfl)
  | [_] => exact Or.inr (Or.inl rfl)
  | [_, _] => exact Or.inr (Or.inl rfl)
  | a0 :: a1 :: a2 :: rest =>
      cases hf : fs a1 with
      | unreadable => simp [runMain, hf]
      | invalid => simp [runMain, hf]
      | json d =>
          cases hr : runLookup d a2 with
          | error e => simp [runMain, hf, hr]
          | ok out =>
              rcases runLookup_ok_vals d a2 out hr with h | h <;>
                simp [runMain, hf, hr, h]

theorem hasLibLoop_strKind (s : String) :
    hasLibLoop [Json.obj [("kind", Json.str s)]]
      = .ok (containsSeq "lib".toList s.toList) := by
  simp only [hasLibLoop, getItem_kind, bind, Except.bind, pyInLib]
  cases containsSeq "lib".toList s.toList <;> rfl

/-- Claim C10: when the first matching package has a target whose `kind` is
a bare string, the lib test degrades to substring containment: the answer is
"true" exactly when the string contains "lib" as a substring, so "staticlib"
and "library" answer "true" while "bin" answers "false". -/
theorem c10_string_kind_substring :
    (∀ n s : String, runLookup (strKindDoc n s) n
        = .ok (if containsSeq "lib".toList s.toList then "true" else "false"))
    ∧ runLookup (strKindDoc "core" "staticlib") "core" = .ok "true"
    ∧ runLookup (strKindDoc "core" "library") "core" = .ok "true"
    ∧ runLookup (strKindDoc "core" "bin") "core" = .ok "false" := by
  refine ⟨?_, rfl, rfl, rfl⟩
  intro n s
  simp only [runLookup, strKindDoc, getItem_packages, bind, Except.bind, pyIter,
    loopPackages, getItem_nt_name, getItem_nt_targets, pyEqStr, beq_self_eq_true,
    if_true, hasLibLoop_strKind]
